import Mathlib

/-!
Shallow embedding of `src/examples/enhanced_trading_bot.py` (class
`EnhancedTradingBot`): the strategy-selection and position-lifecycle
state machine of the Genesis server API example bot.

Modelling conventions:
* Python floats are modelled as exact rationals (`ℚ`); the arithmetic
  the properties mention (division by 100, halving, the `1.02` close
  multiplier) is exact in `ℚ`.
* `datetime.now()` is modelled by a monotone counter `clock` carried in
  the bot state; each call reads the counter and increments it.
* Python exceptions (`KeyError` from a missing dict key, `ValueError`
  from `float(...)`) are modelled with `Except PyErr`; state mutations
  performed before the exception are kept, exactly as in Python, and
  `execute_strategy` catches the exception and reports failure (the
  `try/except` at `execute_strategy`'s body).
* Each `execute_*_strategy` function additionally returns the list of
  order dicts it passed to `simulate_order_placement`, in call order:
  these are the order intents the properties speak about.  This is pure
  observation of values the source constructs; the ledger effect goes
  through `simulate_order_placement` unchanged.
* Optional dict keys become `Option` fields.  The network results
  (`get_enhanced_signal`, `get_bot_instructions`, `validate_strategy`)
  are supplied as inputs to `analyze_symbol`, since the bot only
  consumes their parsed values; a failed call is `none` (resp. an
  invalid validation).
-/

/-- Python exceptions relevant to the embedded code: `KeyError` from a
missing dictionary key, `ValueError` from `float(...)` on a
non-numeric string. -/
inductive PyErr where
  | keyError
  | valueError
deriving DecidableEq, Repr

/-- One entry of the `scaling_levels` list: a dict
`{percentage: float, price_offset: percentage-string}`. -/
structure ScalingLevel where
  percentage : ℚ
  price_offset : String
deriving DecidableEq, Repr

/-- The `entry_method` dict of `position_management` (section-3 schema:
`{type, scaling_levels?, price_offset?}`; the optional keys belong to
the `scaled_entry` resp. `limit_entry` variants). -/
structure EntryMethod where
  type : String
  scaling_levels : Option (List ScalingLevel)
  price_offset : Option String
deriving DecidableEq, Repr

/-- The `position_management` dict: `entry_method`,
`position_size.percentage` (flattened into one field), and the
optional top-level `scaling_levels` key that
`execute_accumulation_strategy` actually reads
(`position_mgmt['scaling_levels']`). -/
structure PositionMgmt where
  entry_method : EntryMethod
  position_size_percentage : ℚ
  scaling_levels : Option (List ScalingLevel)
deriving DecidableEq, Repr

/-- The `risk_management` dict: `stop_loss.price` and
`take_profit.levels` (flattened). -/
structure RiskMgmt where
  stop_loss_price : ℚ
  take_profit_levels : List ℚ
deriving DecidableEq, Repr

/-- An order dict as constructed by the `execute_*_strategy` methods:
keys `symbol`, `side`, `amount`, `type` (modelled as `otype`),
optional `price_offset`, optional `delay`, `timestamp`. -/
structure Order where
  symbol : String
  side : String
  amount : ℚ
  otype : String
  price_offset : Option ℚ
  delay : Option ℕ
  timestamp : ℕ
deriving DecidableEq, Repr

/-- A position dict as constructed by `simulate_order_placement`. -/
structure Position where
  symbol : String
  side : String
  amount : ℚ
  value : ℚ
  entry_price : ℚ
  stop_loss : ℚ
  take_profit_levels : List ℚ
  timestamp : ℕ
  status : String
deriving DecidableEq, Repr

/-- A trade dict as appended to `trade_history`; the `reason` key is
present only on close trades. -/
structure Trade where
  symbol : String
  action : String
  side : String
  amount : ℚ
  price : ℚ
  reason : Option String
  timestamp : ℕ
deriving DecidableEq, Repr

/-- The mutable state of an `EnhancedTradingBot` instance together
with its (run-constant) configuration, plus the `clock` modelling
`datetime.now()`. -/
structure BotState where
  account_balance : ℚ
  positions : List Position
  trade_history : List Trade
  confidence_threshold : ℤ
  max_positions : ℕ
  clock : ℕ
deriving DecidableEq, Repr

/-- The signal dict returned by `/api/v1/signal`, as consumed by
`analyze_symbol` (only `confidence` is read there). -/
structure Signal where
  symbol : String
  confidence : ℤ
  market_phase : String
  strategy_type : String
  action : String
deriving DecidableEq, Repr

/-- The `signal_summary` part of the bot-instructions response. -/
structure SignalSummary where
  action : String
  market_phase : String
  strategy_type : String
  confidence : ℤ
deriving DecidableEq, Repr

/-- The `execution_instructions` part of the bot-instructions
response. -/
structure ExecInstr where
  position_management : PositionMgmt
  risk_management : RiskMgmt
deriving DecidableEq, Repr

/-- The full bot-instructions response consumed by
`execute_strategy`. -/
structure Instructions where
  signal_summary : SignalSummary
  execution_instructions : ExecInstr
deriving DecidableEq, Repr

/-- The per-symbol external inputs of `analyze_symbol`: the signal
(`none` when the HTTP call failed), the instructions (`none` when that
call failed), and the `valid` flag of the validation response. -/
structure SymbolInput where
  signal : Option Signal
  instructions : Option Instructions
  validation_valid : Bool
deriving DecidableEq, Repr

/-- Value of a decimal digit character. -/
def digitVal (c : Char) : ℕ := c.toNat - Char.toNat (Char.ofNat 48)

/-- Natural number denoted by a list of decimal digit characters. -/
def digitsToNat (l : List Char) : ℕ := l.foldl (fun a c => 10 * a + digitVal c) 0

/-- Decimal fragment of Python `float(...)` on an unsigned string:
digits with an optional fractional part (`"12"`, `"0.5"`, `".5"`,
`"5."`); `none` when the string is not of this shape.  Exponent,
infinity/nan, whitespace and underscore forms of `float` do not occur
among the percentage strings this development considers. -/
def parseUnsignedDecimal (cs : List Char) : Option ℚ :=
  let intPart := cs.takeWhile Char.isDigit
  let rest := cs.dropWhile Char.isDigit
  match rest with
  | [] => if intPart.isEmpty then none else some (digitsToNat intPart : ℚ)
  | '.' :: frac =>
    if frac.all Char.isDigit && !(intPart.isEmpty && frac.isEmpty) then
      some ((digitsToNat intPart : ℚ) + (digitsToNat frac : ℚ) / (10 ^ frac.length))
    else none
  | _ => none

/-- Decimal fragment of Python `float(...)`: optional sign followed by
an unsigned decimal. -/
def parseDecimal (s : String) : Option ℚ :=
  match s.toList with
  | '-' :: rest => (parseUnsignedDecimal rest).map (fun q => -q)
  | '+' :: rest => parseUnsignedDecimal rest
  | cs => parseUnsignedDecimal cs

/-- Python `s.replace('%', '')`: removes every `'%'` character. -/
def removeAllPercent (s : String) : String :=
  String.mk (s.toList.filter (fun c => c ≠ '%'))

/-- Percentage-string parsing as the source performs it:
`float(s.replace('%', '')) / 100` — remove every `'%'`, parse, divide
by 100; `none` models the `ValueError` raised by `float`. -/
def parsePercentCode (s : String) : Option ℚ :=
  (parseDecimal (removeAllPercent s)).map (fun q => q / 100)

/-- Modelled from the spec: the spec's percentage-string parsing —
"strip a trailing '%' character and divide by 100"; `none` models the
FormatError on a non-numeric remainder.  Stated only to compare with
`parsePercentCode`, the parsing the source performs. -/
def stripTrailingPercent (s : String) : String :=
  if s.toList.getLast? = some '%' then String.mk s.toList.dropLast else s

/-- Modelled from the spec: full spec-side percentage parsing (strip a
single trailing `'%'`, then parse and divide by 100). -/
def parsePercentSpec (s : String) : Option ℚ :=
  (parseDecimal (stripTrailingPercent s)).map (fun q => q / 100)

/-- The position dict built inside `simulate_order_placement`
(`entry_price` is the simulated constant `50000`). -/
def mkPosition (order : Order) (rm : RiskMgmt) (balance : ℚ) : Position :=
  { symbol := order.symbol
    side := if order.side = "buy" then "long" else "short"
    amount := order.amount
    value := balance * order.amount
    entry_price := 50000
    stop_loss := rm.stop_loss_price
    take_profit_levels := rm.take_profit_levels
    timestamp := order.timestamp
    status := "open" }

/-- `EnhancedTradingBot.simulate_order_placement`: appends the new
position to `self.positions` and an "open" trade to
`self.trade_history`, returns `True`.  (With a total `risk_mgmt`
record the `except` branch is unreachable.) -/
def simulate_order_placement (order : Order) (rm : RiskMgmt) (s : BotState) :
    Bool × BotState :=
  let position := mkPosition order rm s.account_balance
  let trade : Trade :=
    { symbol := order.symbol
      action := "open"
      side := position.side
      amount := order.amount
      price := position.entry_price
      reason := none
      timestamp := order.timestamp }
  (true, { s with positions := s.positions ++ [position]
                  trade_history := s.trade_history ++ [trade] })

/-- `EnhancedTradingBot.simulate_position_exit`: filters the position
out of `self.positions` (`p != position`, removing every equal record
and removing nothing when the position is not present), appends a
"close" trade priced at `entry_price * 1.02` with the given reason,
returns `True`. -/
def simulate_position_exit (position : Position) (reason : String) (s : BotState) :
    Bool × BotState :=
  let remaining := s.positions.filter (fun p => p ≠ position)
  let trade : Trade :=
    { symbol := position.symbol
      action := "close"
      side := position.side
      amount := position.amount
      price := position.entry_price * 1.02
      reason := some reason
      timestamp := s.clock }
  (true, { s with positions := remaining
                  trade_history := s.trade_history ++ [trade]
                  clock := s.clock + 1 })

/-- `EnhancedTradingBot.get_position`: first position whose `symbol`
matches, or `None`. -/
def get_position (symbol : String) (s : BotState) : Option Position :=
  s.positions.find? (fun p => p.symbol = symbol)

/-- The loop body of `execute_accumulation_strategy` over the scaling
levels, with the running index `i` (Python `enumerate`).  A level whose
`price_offset` does not parse raises `ValueError` (the orders already
placed stay placed, as in Python); otherwise the order dict is built
(`delay = i * 900`) and passed to `simulate_order_placement`. -/
def placeScalingLevels (symbol : String) (pct : ℚ) (rm : RiskMgmt) :
    List ScalingLevel → ℕ → BotState → Except PyErr Unit × List Order × BotState
  | [], _, s => (Except.ok (), [], s)
  | level :: rest, i, s =>
    match parsePercentCode level.price_offset with
    | none => (Except.error PyErr.valueError, [], s)
    | some po =>
      let order : Order :=
        { symbol := symbol
          side := "buy"
          amount := pct * (level.percentage / 100)
          otype := "limit"
          price_offset := some po
          delay := some (i * 900)
          timestamp := s.clock }
      let s1 : BotState := { s with clock := s.clock + 1 }
      let s2 := (simulate_order_placement order rm s1).2
      let r := placeScalingLevels symbol pct rm rest (i + 1) s2
      (r.1, order :: r.2.1, r.2.2)

/-- `EnhancedTradingBot.execute_accumulation_strategy`.  Note the
source reads the scaling levels from
`position_mgmt['scaling_levels']` — the top level of
`position_management`, not `entry_method` — so a missing top-level key
raises `KeyError` even when `entry_method` carries `scaling_levels`.
Returns `True` when no exception is raised (also when the entry type
is not `scaled_entry`, in which case nothing is placed). -/
def execute_accumulation_strategy (symbol : String) (pm : PositionMgmt)
    (rm : RiskMgmt) (s : BotState) : Except PyErr Bool × List Order × BotState :=
  if pm.entry_method.type = "scaled_entry" then
    match pm.scaling_levels with
    | none => (Except.error PyErr.keyError, [], s)
    | some levels =>
      let r := placeScalingLevels symbol pm.position_size_percentage rm levels 0 s
      (match r.1 with
       | Except.ok _ => Except.ok true
       | Except.error e => Except.error e, r.2.1, r.2.2)
  else (Except.ok true, [], s)

/-- `EnhancedTradingBot.execute_distribution_strategy`: close an
existing position (reason `"distribution_exit"`), then place one
market sell order when `position_size.percentage > 0`. -/
def execute_distribution_strategy (symbol : String) (pm : PositionMgmt)
    (rm : RiskMgmt) (s : BotState) : Except PyErr Bool × List Order × BotState :=
  let s1 := match get_position symbol s with
            | some p => (simulate_position_exit p "distribution_exit" s).2
            | none => s
  if 0 < pm.position_size_percentage then
    let order : Order :=
      { symbol := symbol
        side := "sell"
        amount := pm.position_size_percentage
        otype := "market"
        price_offset := none
        delay := none
        timestamp := s1.clock }
    let s2 : BotState := { s1 with clock := s1.clock + 1 }
    (Except.ok true, [order], (simulate_order_placement order rm s2).2)
  else (Except.ok true, [], s1)

/-- `EnhancedTradingBot.execute_markup_strategy`: one market buy order
when the entry method is `immediate_entry`. -/
def execute_markup_strategy (symbol : String) (pm : PositionMgmt)
    (rm : RiskMgmt) (s : BotState) : Except PyErr Bool × List Order × BotState :=
  if pm.entry_method.type = "immediate_entry" then
    let order : Order :=
      { symbol := symbol
        side := "buy"
        amount := pm.position_size_percentage
        otype := "market"
        price_offset := none
        delay := none
        timestamp := s.clock }
    let s1 : BotState := { s with clock := s.clock + 1 }
    (Except.ok true, [order], (simulate_order_placement order rm s1).2)
  else (Except.ok true, [], s)

/-- `EnhancedTradingBot.execute_markdown_strategy`: close an existing
long position (reason `"markdown_exit"`), then place one limit sell
order when `position_size.percentage > 0`. -/
def execute_markdown_strategy (symbol : String) (pm : PositionMgmt)
    (rm : RiskMgmt) (s : BotState) : Except PyErr Bool × List Order × BotState :=
  let s1 := match get_position symbol s with
            | some p =>
              if p.side = "long" then (simulate_position_exit p "markdown_exit" s).2 else s
            | none => s
  if 0 < pm.position_size_percentage then
    let order : Order :=
      { symbol := symbol
        side := "sell"
        amount := pm.position_size_percentage
        otype := "limit"
        price_offset := none
        delay := none
        timestamp := s1.clock }
    let s2 : BotState := { s1 with clock := s1.clock + 1 }
    (Except.ok true, [order], (simulate_order_placement order rm s2).2)
  else (Except.ok true, [], s1)

/-- `EnhancedTradingBot.execute_consolidation_strategy`: one limit buy
order with the offset parsed from
`entry_method.get('price_offset', '-0.1%')` when the entry method is
`limit_entry`; a malformed offset raises `ValueError`. -/
def execute_consolidation_strategy (symbol : String) (pm : PositionMgmt)
    (rm : RiskMgmt) (s : BotState) : Except PyErr Bool × List Order × BotState :=
  if pm.entry_method.type = "limit_entry" then
    match parsePercentCode (pm.entry_method.price_offset.getD "-0.1%") with
    | none => (Except.error PyErr.valueError, [], s)
    | some po =>
      let order : Order :=
        { symbol := symbol
          side := "buy"
          amount := pm.position_size_percentage
          otype := "limit"
          price_offset := some po
          delay := none
          timestamp := s.clock }
      let s1 : BotState := { s with clock := s.clock + 1 }
      (Except.ok true, [order], (simulate_order_placement order rm s1).2)
  else (Except.ok true, [], s)

/-- `EnhancedTradingBot.execute_neutral_strategy`: one limit buy order
at half size (`percentage * 0.5`) when `position_size.percentage > 0`,
otherwise nothing. -/
def execute_neutral_strategy (symbol : String) (pm : PositionMgmt)
    (rm : RiskMgmt) (s : BotState) : Except PyErr Bool × List Order × BotState :=
  if 0 < pm.position_size_percentage then
    let order : Order :=
      { symbol := symbol
        side := "buy"
        amount := pm.position_size_percentage * 0.5
        otype := "limit"
        price_offset := none
        delay := none
        timestamp := s.clock }
    let s1 : BotState := { s with clock := s.clock + 1 }
    (Except.ok true, [order], (simulate_order_placement order rm s1).2)
  else (Except.ok true, [], s)

/-- `EnhancedTradingBot.execute_strategy`: dispatch on
`signal_summary['market_phase']`; any phase other than the five
explicit labels (including `"NEUTRAL"`) takes the `else` branch.  The
surrounding `try/except` turns a raised exception into `False`
(keeping the ledger mutations already performed). -/
def execute_strategy (symbol : String) (instr : Instructions) (s : BotState) :
    Bool × List Order × BotState :=
  let pm := instr.execution_instructions.position_management
  let rm := instr.execution_instructions.risk_management
  let phase := instr.signal_summary.market_phase
  let r :=
    if phase = "ACCUMULATION" then execute_accumulation_strategy symbol pm rm s
    else if phase = "DISTRIBUTION" then execute_distribution_strategy symbol pm rm s
    else if phase = "MARKUP" then execute_markup_strategy symbol pm rm s
    else if phase = "MARKDOWN" then execute_markdown_strategy symbol pm rm s
    else if phase = "CONSOLIDATION" then execute_consolidation_strategy symbol pm rm s
    else execute_neutral_strategy symbol pm rm s
  match r.1 with
  | Except.ok b => (b, r.2.1, r.2.2)
  | Except.error _ => (false, r.2.1, r.2.2)

/-- `EnhancedTradingBot.analyze_symbol`: the gate chain — signal
available, `confidence >= confidence_threshold`, instructions
available, validation `valid`, `len(positions) < max_positions` — then
`execute_strategy`. -/
def analyze_symbol (inp : SymbolInput) (symbol : String) (s : BotState) :
    Bool × BotState :=
  match inp.signal with
  | none => (false, s)
  | some sig =>
    if sig.confidence < s.confidence_threshold then (false, s)
    else match inp.instructions with
      | none => (false, s)
      | some instr =>
        if inp.validation_valid = false then (false, s)
        else if s.max_positions ≤ s.positions.length then (false, s)
        else
          let r := execute_strategy symbol instr s
          (r.1, r.2.2)

/-- `EnhancedTradingBot.run_trading_cycle`: process each symbol of the
universe in order with `analyze_symbol` (each symbol paired with its
external inputs for the cycle); a per-symbol exception is caught and
the loop continues. -/
def run_trading_cycle (items : List (String × SymbolInput)) (s : BotState) : BotState :=
  items.foldl (fun st item => (analyze_symbol item.2 item.1 st).2) s

/-- Observation of an order intent: the `(side, type, amount,
price_offset, delay)` components the properties constrain. -/
def projOrder (o : Order) : String × String × ℚ × Option ℚ × Option ℕ :=
  (o.side, o.otype, o.amount, o.price_offset, o.delay)

/-- Pair each list element with its index starting at `i` (Python
`enumerate`). -/
def idxFrom {α : Type} : ℕ → List α → List (ℕ × α)
  | _, [] => []
  | i, a :: as => (i, a) :: idxFrom (i + 1) as

/-- The `(side, type, amount, price_offset, delay)` components the
accumulation loop gives the order of the `i`-th scaling level. -/
def levelIntentView (pct : ℚ) (il : ℕ × ScalingLevel) :
    String × String × ℚ × Option ℚ × Option ℕ :=
  ("buy", "limit", pct * (il.2.percentage / 100),
    parsePercentCode il.2.price_offset, some (il.1 * 900))

/-- The open-then-close round trip: place an order, then exit the
position that placement created. -/
def roundTrip (order : Order) (rm : RiskMgmt) (reason : String) (s : BotState) :
    Bool × BotState :=
  simulate_position_exit (mkPosition order rm s.account_balance) reason
    (simulate_order_placement order rm s).2

/-! Concrete sample data used by the counterexamples and witnesses. -/

/-- A sample `risk_management` record. -/
def rm0 : RiskMgmt := { stop_loss_price := 48000, take_profit_levels := [52000, 54000] }

/-- A sample scaling level (50% of the position at a `-1%` offset). -/
def lvA : ScalingLevel := { percentage := 50, price_offset := "-1%" }

/-- A sample scaling level (50% of the position at a `-2%` offset). -/
def lvB : ScalingLevel := { percentage := 50, price_offset := "-2%" }

/-- A `scaled_entry` entry method with no `scaling_levels` key of its
own. -/
def emScaled : EntryMethod :=
  { type := "scaled_entry", scaling_levels := none, price_offset := none }

/-- A `scaled_entry` entry method carrying its `scaling_levels` as the
section-3 schema prescribes. -/
def emScaledConf : EntryMethod :=
  { type := "scaled_entry", scaling_levels := some [lvA], price_offset := none }

/-- `position_management` with the `scaling_levels` key at the top
level, where the source reads it. -/
def pmAccum : PositionMgmt :=
  { entry_method := emScaled, position_size_percentage := 0.04,
    scaling_levels := some [lvA, lvB] }

/-- `position_management` conforming to the section-3 schema: the
scaling levels sit inside `entry_method` and there is no top-level
`scaling_levels` key. -/
def pmConf : PositionMgmt :=
  { entry_method := emScaledConf, position_size_percentage := 0.04,
    scaling_levels := none }

/-- `position_management` with `position_size.percentage = 0`. -/
def pmZero : PositionMgmt :=
  { entry_method := { type := "immediate_entry", scaling_levels := none, price_offset := none },
    position_size_percentage := 0, scaling_levels := none }

/-- A freshly constructed bot (defaults of `EnhancedTradingBot.__init__`:
balance 10000, threshold 50, `max_positions` 5), no open positions. -/
def freshBot : BotState :=
  { account_balance := 10000, positions := [], trade_history := [],
    confidence_threshold := 50, max_positions := 5, clock := 0 }

/-- A sample open long position for `"BTCUSDT"`. -/
def posBTC : Position :=
  { symbol := "BTCUSDT", side := "long", amount := 0.02, value := 200,
    entry_price := 50000, stop_loss := 48000, take_profit_levels := [52000],
    timestamp := 0, status := "open" }

/-- A bot at its position-count capacity: one open position,
`max_positions = 1`. -/
def botAtCap : BotState :=
  { account_balance := 10000, positions := [posBTC], trade_history := [],
    confidence_threshold := 50, max_positions := 1, clock := 1 }

/-- A high-confidence ACCUMULATION signal for `"BTCUSDT"`. -/
def sigAccum : Signal :=
  { symbol := "BTCUSDT", confidence := 80, market_phase := "ACCUMULATION",
    strategy_type := "accumulation", action := "BUY" }

/-- Bot instructions for an ACCUMULATION phase using `pmAccum`. -/
def instrAccum : Instructions :=
  { signal_summary := { action := "BUY", market_phase := "ACCUMULATION",
                        strategy_type := "accumulation", confidence := 80 },
    execution_instructions := { position_management := pmAccum, risk_management := rm0 } }

/-- Per-symbol inputs that pass every gate: signal present with
confidence 80, instructions present, validation valid. -/
def inpAccum : SymbolInput :=
  { signal := some sigAccum, instructions := some instrAccum, validation_valid := true }

/-- A low-confidence signal (confidence 30, below the threshold 50). -/
def sigLow : Signal :=
  { symbol := "ETHUSDT", confidence := 30, market_phase := "NEUTRAL",
    strategy_type := "wait", action := "HOLD" }

/-- Per-symbol inputs carrying only the low-confidence signal. -/
def inpLow : SymbolInput :=
  { signal := some sigLow, instructions := none, validation_valid := false }

/-! Helper lemmas. -/

/-- Filtering away an element that is not in the list changes
nothing. -/
theorem filter_ne_of_not_mem {α : Type} [DecidableEq α] {l : List α} {a : α}
    (h : a ∉ l) : l.filter (fun x => x ≠ a) = l := by
  induction l with
  | nil => rfl
  | cons b t ih =>
    have hb : b ≠ a := fun e => h (by rw [e]; exact List.mem_cons_self a t)
    have ht : a ∉ t := fun m => h (List.mem_cons_of_mem _ m)
    simp [List.filter_cons, hb]
    exact fun x hx e => ht (e ▸ hx)

/-- `idxFrom` preserves length. -/
theorem idxFrom_length {α : Type} : ∀ (i : ℕ) (l : List α),
    (idxFrom i l).length = l.length
  | _, [] => rfl
  | i, _ :: as => by simp [idxFrom, idxFrom_length (i + 1) as]

/-- Every gate of `analyze_symbol` up to the position-count gate leaves
the state unchanged, and at capacity the position-count gate fires:
with `max_positions ≤ len(positions)` the method returns `False`
without invoking `execute_strategy`. -/
theorem analyze_symbol_at_capacity (inp : SymbolInput) (symbol : String)
    (s : BotState) (h : s.max_positions ≤ s.positions.length) :
    analyze_symbol inp symbol s = (false, s) := by
  unfold analyze_symbol
  cases hs : inp.signal with
  | none => rfl
  | some sig =>
    by_cases hc : sig.confidence < s.confidence_threshold
    · simp [hc]
    · cases hi : inp.instructions with
      | none => simp [hc]
      | some instr =>
        by_cases hv : inp.validation_valid = false
        · simp [hc, hv]
        · simp [hc, hv, h]

/-! Claim theorems. -/

/-- Claim C1, counterexample.  The claim says that after processing any
symbol in any phase at most one open position per symbol exists.  It is
false: processing the single symbol `"BTCUSDT"` once (ACCUMULATION
phase, two scaling levels, all gates passed) from a fresh bot leaves
two open positions for `"BTCUSDT"`, because `simulate_order_placement`
appends unconditionally. -/
theorem c1_counterexample :
    (((analyze_symbol inpAccum "BTCUSDT" freshBot).2).positions.filter
        (fun p => p.symbol = "BTCUSDT")).length = 2 := by decide

/-- Claim C1, amended.  The ledger does not enforce per-symbol
uniqueness: every `simulate_order_placement` call increases the number
of open positions for the order's symbol by exactly one, whether or not
one is already open; uniqueness can only come from callers closing
before opening. -/
theorem c1_amended_placement_increments_symbol_count (order : Order)
    (rm : RiskMgmt) (s : BotState) :
    (((simulate_order_placement order rm s).2).positions.filter
        (fun p => p.symbol = order.symbol)).length
      = (s.positions.filter (fun p => p.symbol = order.symbol)).length + 1 := by
  simp [simulate_order_placement, mkPosition, List.filter_append]

/-- Claim C4, counterexample.  The claim says closing a position that
is not open fails with `NotFoundError` and appends no close trade.  It
is false: `simulate_position_exit` on a fresh bot (no open positions)
reports success and still appends a close trade. -/
theorem c4_counterexample :
    (simulate_position_exit posBTC "manual_exit" freshBot).1 = true ∧
    (simulate_position_exit posBTC "manual_exit" freshBot).2.trade_history.length = 1 := by
  exact ⟨rfl, rfl⟩

/-- Claim C4, amended.  Closing a position that is not currently open
does not fail: `simulate_position_exit` reports success, leaves the
position set unchanged (the filter removes nothing), and still appends
a close trade with the given reason, priced at `entry_price * 1.02`. -/
theorem c4_amended_exit_of_absent_position (p : Position) (reason : String)
    (s : BotState) (h : p ∉ s.positions) :
    (simulate_position_exit p reason s).1 = true ∧
    (simulate_position_exit p reason s).2.positions = s.positions ∧
    (simulate_position_exit p reason s).2.trade_history
      = s.trade_history ++
        [{ symbol := p.symbol, action := "close", side := p.side, amount := p.amount,
           price := p.entry_price * 1.02, reason := some reason, timestamp := s.clock }] := by
  refine ⟨rfl, ?_, rfl⟩
  simpa [simulate_position_exit] using filter_ne_of_not_mem h

/-- Claim C4 witness: the amended statement at the concrete input of
the counterexample (a position absent from a fresh bot). -/
theorem c4_witness :
    posBTC ∉ freshBot.positions ∧
    ((simulate_position_exit posBTC "manual_exit" freshBot).1 = true ∧
     (simulate_position_exit posBTC "manual_exit" freshBot).2.positions = freshBot.positions ∧
     (simulate_position_exit posBTC "manual_exit" freshBot).2.trade_history
       = freshBot.trade_history ++
         [{ symbol := posBTC.symbol, action := "close", side := posBTC.side,
            amount := posBTC.amount, price := posBTC.entry_price * 1.02,
            reason := some "manual_exit", timestamp := freshBot.clock }]) :=
  ⟨by decide, c4_amended_exit_of_absent_position posBTC "manual_exit" freshBot (by decide)⟩

/-- Claim C5 (confirmed).  Opening a position (placing its order) and
then closing that same position removes it from the open set and
appends exactly two trade records — an open trade then a close trade —
with matching symbol and side, the close trade priced at
`entry_price * 1.02`. -/
theorem c5_open_close_round_trip (order : Order) (rm : RiskMgmt)
    (reason : String) (s : BotState) :
    (roundTrip order rm reason s).1 = true ∧
    mkPosition order rm s.account_balance ∉ (roundTrip order rm reason s).2.positions ∧
    (roundTrip order rm reason s).2.trade_history
      = s.trade_history ++
        [{ symbol := order.symbol, action := "open",
           side := (mkPosition order rm s.account_balance).side,
           amount := order.amount,
           price := (mkPosition order rm s.account_balance).entry_price,
           reason := none, timestamp := order.timestamp },
         { symbol := order.symbol, action := "close",
           side := (mkPosition order rm s.account_balance).side,
           amount := (mkPosition order rm s.account_balance).amount,
           price := (mkPosition order rm s.account_balance).entry_price * 1.02,
           reason := some reason, timestamp := s.clock }] := by
  refine ⟨rfl, ?_, ?_⟩
  · simp [roundTrip, simulate_position_exit, simulate_order_placement, List.mem_filter]
  · simp [roundTrip, simulate_position_exit, simulate_order_placement, mkPosition]

/-- The accumulation loop on levels that all parse: it succeeds and the
intents it passes to `simulate_order_placement`, observed through
`projOrder`, are exactly the per-level views in input order with the
running index. -/
theorem placeScalingLevels_intents (symbol : String) (pct : ℚ) (rm : RiskMgmt)
    (levels : List ScalingLevel) :
    ∀ (i : ℕ) (s : BotState),
    (∀ l ∈ levels, (parsePercentCode l.price_offset).isSome = true) →
    (placeScalingLevels symbol pct rm levels i s).1 = Except.ok () ∧
    ((placeScalingLevels symbol pct rm levels i s).2.1).map projOrder
      = (idxFrom i levels).map (levelIntentView pct) := by
  induction levels with
  | nil => intro i s _; exact ⟨rfl, rfl⟩
  | cons level rest ih =>
    intro i s h
    obtain ⟨po, hpo⟩ := Option.isSome_iff_exists.mp (h level (List.mem_cons_self _ _))
    have hrest : ∀ l ∈ rest, (parsePercentCode l.price_offset).isSome = true :=
      fun l hl => h l (List.mem_cons_of_mem _ hl)
    obtain ⟨h1, h2⟩ := ih (i + 1)
      ((simulate_order_placement
        { symbol := symbol, side := "buy", amount := pct * (level.percentage / 100),
          otype := "limit", price_offset := some po, delay := some (i * 900),
          timestamp := s.clock } rm { s with clock := s.clock + 1 }).2) hrest
    refine ⟨?_, ?_⟩
    · simp only [placeScalingLevels, hpo]
      exact h1
    · simp only [placeScalingLevels, hpo, idxFrom, List.map_cons]
      rw [h2]
      simp [projOrder, levelIntentView, hpo]

/-- Claim C2, counterexample.  The claim says an ACCUMULATION execution
whose instructions conform to the section-3 schema (the scaling levels
inside `entry_method`) with `N` levels produces exactly `N` limit buy
intents.  It is false: with one level carried by `entry_method` and no
top-level `scaling_levels` key the execution produces zero intents and
raises `KeyError`, because the source reads
`position_mgmt['scaling_levels']`. -/
theorem c2_counterexample :
    pmConf.entry_method.scaling_levels = some [lvA] ∧
    (execute_accumulation_strategy "BTCUSDT" pmConf rm0 freshBot).2.1 = [] ∧
    (execute_accumulation_strategy "BTCUSDT" pmConf rm0 freshBot).1
      = Except.error PyErr.keyError := ⟨rfl, rfl, rfl⟩

/-- Claim C2, amended.  The source reads the scaling levels from the
top level of `position_management`, not from `entry_method`: when that
key holds `N` levels (entry type `scaled_entry`, every
`price_offset` string parseable), the execution succeeds and produces
exactly `N` limit buy intents, in input order, with
`amount_i = position_size.percentage * (level_i.percentage / 100)`,
`price_offset_i` parsed from the level's percentage-string and
`delay_i = i * 900`. -/
theorem c2_amended_accumulation_intents (symbol : String) (pm : PositionMgmt)
    (rm : RiskMgmt) (s : BotState) (levels : List ScalingLevel)
    (hty : pm.entry_method.type = "scaled_entry")
    (hlv : pm.scaling_levels = some levels)
    (hp : ∀ l ∈ levels, (parsePercentCode l.price_offset).isSome = true) :
    (execute_accumulation_strategy symbol pm rm s).1 = Except.ok true ∧
    (execute_accumulation_strategy symbol pm rm s).2.1.length = levels.length ∧
    ((execute_accumulation_strategy symbol pm rm s).2.1).map projOrder
      = (idxFrom 0 levels).map (levelIntentView pm.position_size_percentage) := by
  obtain ⟨h1, h2⟩ :=
    placeScalingLevels_intents symbol pm.position_size_percentage rm levels 0 s hp
  have hlen : (placeScalingLevels symbol pm.position_size_percentage rm levels 0 s).2.1.length
      = levels.length := by
    have := congrArg List.length h2
    simpa [idxFrom_length] using this
  refine ⟨?_, ?_, ?_⟩
  · simp only [execute_accumulation_strategy, hty, hlv, if_pos, h1]
  · simpa only [execute_accumulation_strategy, hty, hlv, if_pos] using hlen
  · simpa only [execute_accumulation_strategy, hty, hlv, if_pos] using h2

/-- Claim C2 witness: the amended statement at a concrete input with
two scaling levels at the top level of `position_management`. -/
theorem c2_witness :
    pmAccum.entry_method.type = "scaled_entry" ∧
    pmAccum.scaling_levels = some [lvA, lvB] ∧
    ([lvA, lvB].all (fun l => (parsePercentCode l.price_offset).isSome)) = true ∧
    ((execute_accumulation_strategy "BTCUSDT" pmAccum rm0 freshBot).1 = Except.ok true ∧
     (execute_accumulation_strategy "BTCUSDT" pmAccum rm0 freshBot).2.1.length
       = [lvA, lvB].length ∧
     ((execute_accumulation_strategy "BTCUSDT" pmAccum rm0 freshBot).2.1).map projOrder
       = (idxFrom 0 [lvA, lvB]).map (levelIntentView pmAccum.position_size_percentage)) :=
  ⟨rfl, rfl, by decide,
    c2_amended_accumulation_intents "BTCUSDT" pmAccum rm0 freshBot [lvA, lvB]
      rfl rfl (by decide)⟩

/-- Claim C3, counterexample.  The claim says that once the open
position count has reached `max_positions`, no further position is
opened in that cycle, regardless of how many intents a single strategy
execution produces.  It is false: with `max_positions = 1` and no open
positions, a single ACCUMULATION execution with two scaling levels
opens two positions in the cycle — the second placement happens after
the count has already reached the maximum. -/
theorem c3_counterexample :
    ({ freshBot with max_positions := 1 } : BotState).max_positions = 1 ∧
    (run_trading_cycle [("BTCUSDT", inpAccum)]
        { freshBot with max_positions := 1 }).positions.length = 2 := by
  exact ⟨rfl, by decide⟩

/-- Claim C3, amended.  The position-count gate is enforced only at
symbol granularity: whenever the open-position count is at least
`max_positions`, processing any remaining sequence of symbols leaves
the bot state unchanged (no position is opened or closed); but a single
strategy execution entered while below the limit may place several
orders in one go and overshoot `max_positions`. -/
theorem c3_amended_cycle_frozen_at_capacity (items : List (String × SymbolInput))
    (s : BotState) (h : s.max_positions ≤ s.positions.length) :
    run_trading_cycle items s = s := by
  induction items with
  | nil => rfl
  | cons item rest ih =>
    have hstep := analyze_symbol_at_capacity item.2 item.1 s h
    simp only [run_trading_cycle, List.foldl_cons, hstep]
    exact ih

/-- Claim C3 witness: a bot at capacity (one open position,
`max_positions = 1`) is left unchanged by a cycle over a symbol whose
inputs pass every other gate. -/
theorem c3_witness :
    botAtCap.max_positions ≤ botAtCap.positions.length ∧
    run_trading_cycle [("BTCUSDT", inpAccum)] botAtCap = botAtCap :=
  ⟨by decide, c3_amended_cycle_frozen_at_capacity [("BTCUSDT", inpAccum)] botAtCap (by decide)⟩

/-- Claim C10 (confirmed).  Whenever the open-position count is at
least `max_positions` when a symbol is analyzed, `analyze_symbol`
returns `False` before any strategy execution and the bot state —
positions and trade history included — is unchanged; in particular no
existing position is closed through signal processing (DISTRIBUTION or
MARKDOWN included) while the ledger is at or above capacity. -/
theorem c10_capacity_gate_blocks_all_phases (inp : SymbolInput) (symbol : String)
    (s : BotState) (h : s.max_positions ≤ s.positions.length) :
    analyze_symbol inp symbol s = (false, s) :=
  analyze_symbol_at_capacity inp symbol s h

/-- Claim C10 witness: the capacity gate at a concrete bot at capacity,
with inputs carrying a passing signal. -/
theorem c10_witness :
    botAtCap.max_positions ≤ botAtCap.positions.length ∧
    analyze_symbol inpAccum "BTCUSDT" botAtCap = (false, botAtCap) :=
  ⟨by decide, c10_capacity_gate_blocks_all_phases inpAccum "BTCUSDT" botAtCap (by decide)⟩

/-- Claim C6 (confirmed).  A DISTRIBUTION execution on a symbol with an
existing open position and `position_size.percentage = 0` closes that
position (reason `"distribution_exit"`) and emits no new order intent:
the result succeeds, the intent list is empty, the position is filtered
out of the open set, and exactly the close trade is appended. -/
theorem c6_distribution_exit_without_new_intent (symbol : String) (pm : PositionMgmt)
    (rm : RiskMgmt) (s : BotState) (p : Position)
    (hp : get_position symbol s = some p)
    (h0 : pm.position_size_percentage = 0) :
    (execute_distribution_strategy symbol pm rm s).1 = Except.ok true ∧
    (execute_distribution_strategy symbol pm rm s).2.1 = [] ∧
    (execute_distribution_strategy symbol pm rm s).2.2.positions
      = s.positions.filter (fun q => q ≠ p) ∧
    (execute_distribution_strategy symbol pm rm s).2.2.trade_history
      = s.trade_history ++
        [{ symbol := p.symbol, action := "close", side := p.side, amount := p.amount,
           price := p.entry_price * 1.02, reason := some "distribution_exit",
           timestamp := s.clock }] := by
  simp [execute_distribution_strategy, hp, h0, simulate_position_exit]

/-- Claim C6 witness: the statement at a concrete bot holding one open
`"BTCUSDT"` position and instructions with zero position size. -/
theorem c6_witness :
    get_position "BTCUSDT" botAtCap = some posBTC ∧
    pmZero.position_size_percentage = 0 ∧
    ((execute_distribution_strategy "BTCUSDT" pmZero rm0 botAtCap).1 = Except.ok true ∧
     (execute_distribution_strategy "BTCUSDT" pmZero rm0 botAtCap).2.1 = [] ∧
     (execute_distribution_strategy "BTCUSDT" pmZero rm0 botAtCap).2.2.positions
       = botAtCap.positions.filter (fun q => q ≠ posBTC) ∧
     (execute_distribution_strategy "BTCUSDT" pmZero rm0 botAtCap).2.2.trade_history
       = botAtCap.trade_history ++
         [{ symbol := posBTC.symbol, action := "close", side := posBTC.side,
            amount := posBTC.amount, price := posBTC.entry_price * 1.02,
            reason := some "distribution_exit", timestamp := botAtCap.clock }]) :=
  ⟨rfl, rfl,
    c6_distribution_exit_without_new_intent "BTCUSDT" pmZero rm0 botAtCap posBTC
      rfl rfl⟩

/-- Claim C7 (confirmed).  For the NEUTRAL phase and for every phase
label other than the five explicit ones, `execute_strategy` dispatches
to the neutral arm (not an error): it reports success and produces
exactly one limit buy intent of half size
(`position_size.percentage * 0.5`) when the percentage is positive, and
no intent — with the state untouched — when it is `0`. -/
theorem c7_unrecognized_phase_is_neutral (symbol : String) (instr : Instructions)
    (s : BotState)
    (h : instr.signal_summary.market_phase ∉
      (["ACCUMULATION", "DISTRIBUTION", "MARKUP", "MARKDOWN", "CONSOLIDATION"] :
        List String)) :
    (execute_strategy symbol instr s).1 = true ∧
    (0 < instr.execution_instructions.position_management.position_size_percentage →
      (execute_strategy symbol instr s).2.1
        = [{ symbol := symbol, side := "buy",
             amount :=
               instr.execution_instructions.position_management.position_size_percentage
                 * 0.5,
             otype := "limit", price_offset := none, delay := none,
             timestamp := s.clock }]) ∧
    (instr.execution_instructions.position_management.position_size_percentage = 0 →
      (execute_strategy symbol instr s).2.1 = [] ∧
      (execute_strategy symbol instr s).2.2 = s) := by
  simp only [List.mem_cons, List.not_mem_nil, or_false, not_or] at h
  obtain ⟨hA, hD, hMu, hMd, hC⟩ := h
  unfold execute_strategy
  simp only [if_neg hA, if_neg hD, if_neg hMu, if_neg hMd, if_neg hC]
  by_cases hpct :
      0 < instr.execution_instructions.position_management.position_size_percentage
  · refine ⟨?_, ?_, ?_⟩
    · simp [execute_neutral_strategy, hpct]
    · intro _; simp [execute_neutral_strategy, hpct]
    · intro h0; rw [h0] at hpct; exact absurd hpct (lt_irrefl 0)
  · refine ⟨?_, ?_, ?_⟩
    · simp [execute_neutral_strategy, hpct]
    · intro hc; exact absurd hc hpct
    · intro _; simp [execute_neutral_strategy, hpct]

/-- `position_management` for the neutral-phase witness: positive
position size, no scaling levels anywhere. -/
def pmNeutral : PositionMgmt :=
  { entry_method := { type := "wait_and_see", scaling_levels := none, price_offset := none },
    position_size_percentage := 0.04, scaling_levels := none }

/-- Bot instructions whose `market_phase` is `"NEUTRAL"`. -/
def instrNeutral : Instructions :=
  { signal_summary := { action := "HOLD", market_phase := "NEUTRAL",
                        strategy_type := "wait", confidence := 60 },
    execution_instructions := { position_management := pmNeutral, risk_management := rm0 } }

/-- Claim C7 witness: the statement at a concrete instruction set whose
phase is `"NEUTRAL"` and whose position size is `0.04` (the half-size
intent has amount `0.02`). -/
theorem c7_witness :
    instrNeutral.signal_summary.market_phase ∉
      (["ACCUMULATION", "DISTRIBUTION", "MARKUP", "MARKDOWN", "CONSOLIDATION"] :
        List String) ∧
    ((execute_strategy "ETHUSDT" instrNeutral freshBot).1 = true ∧
     (0 < instrNeutral.execution_instructions.position_management.position_size_percentage →
       (execute_strategy "ETHUSDT" instrNeutral freshBot).2.1
         = [{ symbol := "ETHUSDT", side := "buy",
              amount :=
                instrNeutral.execution_instructions.position_management.position_size_percentage
                  * 0.5,
              otype := "limit", price_offset := none, delay := none,
              timestamp := freshBot.clock }]) ∧
     (instrNeutral.execution_instructions.position_management.position_size_percentage = 0 →
       (execute_strategy "ETHUSDT" instrNeutral freshBot).2.1 = [] ∧
       (execute_strategy "ETHUSDT" instrNeutral freshBot).2.2 = freshBot)) :=
  ⟨by decide,
    c7_unrecognized_phase_is_neutral "ETHUSDT" instrNeutral freshBot (by decide)⟩

/-- Claim C9 (confirmed).  A signal whose confidence is strictly below
`confidence_threshold` makes `analyze_symbol` return `False` before any
strategy execution, with the bot state — open positions and trade
history included — unchanged. -/
theorem c9_confidence_gate_blocks_execution (inp : SymbolInput) (symbol : String)
    (s : BotState) (sig : Signal) (hs : inp.signal = some sig)
    (hc : sig.confidence < s.confidence_threshold) :
    analyze_symbol inp symbol s = (false, s) := by
  simp [analyze_symbol, hs, hc]

/-- Claim C9 witness: the confidence gate at a concrete signal of
confidence 30 against the threshold 50 of a fresh bot. -/
theorem c9_witness :
    inpLow.signal = some sigLow ∧
    sigLow.confidence < freshBot.confidence_threshold ∧
    analyze_symbol inpLow "ETHUSDT" freshBot = (false, freshBot) :=
  ⟨rfl, by decide,
    c9_confidence_gate_blocks_execution inpLow "ETHUSDT" freshBot sigLow rfl (by decide)⟩

/-- Filtering out `'%'` from a list in which `'%'` occurs at most as
the final character equals dropping that final `'%'` (or doing
nothing). -/
theorem percent_filter_of_trailing (l : List Char) (h : '%' ∉ l.dropLast) :
    l.filter (fun c => c ≠ '%')
      = (if l.getLast? = some '%' then l.dropLast else l) := by
  induction l using List.reverseRecOn with
  | nil => rfl
  | append_singleton as a _ =>
    rw [List.dropLast_concat] at h
    by_cases ha : a = '%'
    · subst ha
      simp [List.filter_append, List.getLast?_concat]
      exact fun x hx e => h (e ▸ hx)
    · simp [List.filter_append, List.getLast?_concat, ha]
      exact fun x hx e => h (e ▸ hx)

/-- Claim C8, counterexample.  The claim says percentage parsing strips
a single trailing `'%'` and fails exactly when the remainder is not
numeric.  It is false on `"1%2"`: the remainder after stripping a
trailing `'%'` is `"1%2"` itself, which is not numeric, so the claim
demands a FormatError — but the source removes every `'%'` character
(`.replace('%', '')`), parses `"12"`, and returns `12 / 100`. -/
theorem c8_counterexample :
    parsePercentCode "1%2" = some ((12 : ℚ) / 100) ∧
    parsePercentSpec "1%2" = none := ⟨rfl, rfl⟩

/-- Claim C8, amended.  On strings in which `'%'` occurs at most once
and only as the final character, the source's parsing agrees with the
claimed strip-one-trailing-`'%'` parsing (divide the numeric remainder
by 100, fail exactly when it is not numeric); on other strings the
source instead removes every `'%'` character before parsing. -/
theorem c8_amended_parse_agrees_on_trailing_percent (s : String)
    (h : '%' ∉ s.toList.dropLast) :
    parsePercentCode s = parsePercentSpec s := by
  have hl := percent_filter_of_trailing s.toList h
  by_cases hc : s.toList.getLast? = some '%'
  · rw [if_pos hc] at hl
    unfold parsePercentCode parsePercentSpec removeAllPercent stripTrailingPercent
    rw [hl, if_pos hc]
  · rw [if_neg hc] at hl
    unfold parsePercentCode parsePercentSpec removeAllPercent stripTrailingPercent
    rw [hl, if_neg hc]
    rfl

/-- Claim C8 witness: agreement of the two parsings on the well-formed
percentage-string `"-1.5%"`. -/
theorem c8_witness :
    '%' ∉ ("-1.5%".toList.dropLast) ∧
    parsePercentCode "-1.5%" = parsePercentSpec "-1.5%" :=
  ⟨by decide, c8_amended_parse_agrees_on_trailing_percent "-1.5%" (by decide)⟩
